import Mathlib

/-!
Verification development for the deal-brief extraction pipeline.

The definitions below are a shallow embedding of the backend source:
`models.py` (data model), `database.py` (store operations), `main.py`
(content hashing and the submission endpoint), `websocket.py` (status
fan-out), and `llm_service.py` (the extraction orchestrator).
External collaborators (the LLM provider, the JSON decoder of the
standard library, socket send success) are parameters of the embedding;
everything else is translated from the source.
-/

namespace DealBrief

/-- Deal lifecycle states, from `models.py` (`class DealStatus`). -/
inductive DealStatus
  | pending
  | extracting
  | validating
  | completed
  | failed
deriving DecidableEq, Repr

/-- The validated output schema, from `models.py` (`class ExtractedDeal`).
`metrics` is an association list standing for the JSON object
`dict[str, str]`. -/
structure ExtractedDeal where
  company_name : String
  founders : List String
  sector : String
  geography : String
  stage : String
  round_size : String
  metrics : List (String × String)
  investment_brief : List String
  tags : List String
deriving DecidableEq, Repr

/-- A persisted deal record, from `models.py` (`class DealResponse`) and the
`deals` table in `database.py`.  Timestamps are omitted: no claim depends on
them. -/
structure Deal where
  id : String
  content_hash : String
  raw_text : String
  status : DealStatus
  last_error : Option String
  company_name : Option String
  founders : Option (List String)
  sector : Option String
  geography : Option String
  stage : Option String
  round_size : Option String
  metrics : Option (List (String × String))
  investment_brief : Option (List String)
  tags : Option (List String)
deriving DecidableEq, Repr

/-- The deal table, rows in insertion order. -/
abbrev Store := List Deal

/-- `database.create_deal`: INSERT a new row with `status = 'pending'` and
every structured column NULL, then read it back. -/
def createDeal (store : Store) (deal_id content_hash raw_text : String) :
    Store × Deal :=
  let d : Deal :=
    { id := deal_id
      content_hash := content_hash
      raw_text := raw_text
      status := DealStatus.pending
      last_error := none
      company_name := none
      founders := none
      sector := none
      geography := none
      stage := none
      round_size := none
      metrics := none
      investment_brief := none
      tags := none }
  (store ++ [d], d)

/-- `database.get_deal_by_hash`: first row whose `content_hash` matches. -/
def getDealByHash (store : Store) (h : String) : Option Deal :=
  store.find? (fun d => d.content_hash == h)

/-- `database.get_deal_by_id`: first row whose `id` matches. -/
def getDealById (store : Store) (deal_id : String) : Option Deal :=
  store.find? (fun d => d.id == deal_id)

/-- `database.update_deal_status`: UPDATE `status` and `last_error` on the
row with the given id (the SQL sets `last_error` to the passed value, NULL
included). -/
def updateDealStatus (store : Store) (deal_id : String) (st : DealStatus)
    (last_error : Option String) : Store :=
  store.map (fun d =>
    if d.id == deal_id then { d with status := st, last_error := last_error }
    else d)

/-- `database.update_deal_extracted`: UPDATE setting `status = 'completed'`
and all nine structured columns in the same statement; `last_error` is not
touched. -/
def updateDealExtracted (store : Store) (deal_id : String)
    (e : ExtractedDeal) : Store :=
  store.map (fun d =>
    if d.id == deal_id then
      { d with
        status := DealStatus.completed
        company_name := some e.company_name
        founders := some e.founders
        sector := some e.sector
        geography := some e.geography
        stage := some e.stage
        round_size := some e.round_size
        metrics := some e.metrics
        investment_brief := some e.investment_brief
        tags := some e.tags }
    else d)

/-! ### Content hasher (`main.compute_content_hash`)

`compute_content_hash(text)` is
`hashlib.sha256(" ".join(text.lower().split()).encode()).hexdigest()`.
The normalization (`lower`, whitespace split, single-space join), the UTF-8
encoding of `str.encode()` and the SHA-256 digest of `hashlib` are each
embedded below. -/

/-- The whitespace characters `str.split()` splits on (the ASCII ones;
non-ASCII Unicode spaces do not occur in any input considered here). -/
def isPySpace (c : Char) : Bool :=
  c == ' ' || c == '\t' || c == '\n' || c == '\r' ||
  c == (Char.ofNat 11) || c == (Char.ofNat 12)

/-- `str.split()` with no argument: split on whitespace runs, discarding
empty pieces.  `acc` is the current word, reversed. -/
def pySplitAux : List Char → List Char → List (List Char)
  | [], acc => if acc.isEmpty then [] else [acc.reverse]
  | c :: cs, acc =>
    if isPySpace c then
      if acc.isEmpty then pySplitAux cs [] else acc.reverse :: pySplitAux cs []
    else pySplitAux cs (c :: acc)

/-- `" ".join(words)`. -/
def joinSpace : List (List Char) → List Char
  | [] => []
  | [w] => w
  | w :: ws => w ++ ' ' :: joinSpace ws

/-- `" ".join(text.lower().split())` on the character list of the text. -/
def normalizeChars (cs : List Char) : List Char :=
  joinSpace (pySplitAux (cs.map Char.toLower) [])

/-- The normalized text as a string. -/
def normalize (text : String) : String :=
  String.mk (normalizeChars text.data)

/-- UTF-8 encoding of one code point (`str.encode()`), as byte values. -/
def utf8Char (c : Char) : List Nat :=
  let n := c.toNat
  if n < 128 then [n]
  else if n < 2048 then
    [192 + n / 64, 128 + n % 64]
  else if n < 65536 then
    [224 + n / 4096, 128 + n / 64 % 64, 128 + n % 64]
  else
    [240 + n / 262144, 128 + n / 4096 % 64, 128 + n / 64 % 64, 128 + n % 64]

/-- UTF-8 encoding of a character list. -/
def utf8Encode (cs : List Char) : List Nat :=
  (cs.map utf8Char).flatten

/-! SHA-256 (FIPS 180-4), on lists of byte values, word arithmetic mod 2^32. -/

/-- Truncate to a 32-bit word. -/
def w32 (n : Nat) : Nat := n % 4294967296

/-- Right rotation of a 32-bit word. -/
def rotr (n x : Nat) : Nat := w32 ((x >>> n) ||| (x <<< (32 - n)))

/-- Bitwise complement of a 32-bit word. -/
def compl32 (x : Nat) : Nat := x ^^^ 4294967295

/-- SHA-256 `Ch`. -/
def sha_ch (x y z : Nat) : Nat := (x &&& y) ^^^ (compl32 x &&& z)

/-- SHA-256 `Maj`. -/
def sha_maj (x y z : Nat) : Nat := (x &&& y) ^^^ (x &&& z) ^^^ (y &&& z)

/-- SHA-256 `Σ0`. -/
def bigSigma0 (x : Nat) : Nat := rotr 2 x ^^^ rotr 13 x ^^^ rotr 22 x

/-- SHA-256 `Σ1`. -/
def bigSigma1 (x : Nat) : Nat := rotr 6 x ^^^ rotr 11 x ^^^ rotr 25 x

/-- SHA-256 `σ0`. -/
def smallSigma0 (x : Nat) : Nat := rotr 7 x ^^^ rotr 18 x ^^^ (x >>> 3)

/-- SHA-256 `σ1`. -/
def smallSigma1 (x : Nat) : Nat := rotr 17 x ^^^ rotr 19 x ^^^ (x >>> 10)

/-- The 64 SHA-256 round constants. -/
def sha_k : List Nat :=
  [1116352408, 1899447441, 3049323471, 3921009573,
   961987163, 1508970993, 2453635748, 2870763221,
   3624381080, 310598401, 607225278, 1426881987,
   1925078388, 2162078206, 2614888103, 3248222580,
   3835390401, 4022224774, 264347078, 604807628,
   770255983, 1249150122, 1555081692, 1996064986,
   2554220882, 2821834349, 2952996808, 3210313671,
   3336571891, 3584528711, 113926993, 338241895,
   666307205, 773529912, 1294757372, 1396182291,
   1695183700, 1986661051, 2177026350, 2456956037,
   2730485921, 2820302411, 3259730800, 3345764771,
   3516065817, 3600352804, 4094571909, 275423344,
   430227734, 506948616, 659060556, 883997877,
   958139571, 1322822218, 1537002063, 1747873779,
   1955562222, 2024104815, 2227730452, 2361852424,
   2428436474, 2756734187, 3204031479, 3329325298]

/-- The eight words of the SHA-256 working state. -/
structure Sha256State where
  h0 : Nat
  h1 : Nat
  h2 : Nat
  h3 : Nat
  h4 : Nat
  h5 : Nat
  h6 : Nat
  h7 : Nat
deriving DecidableEq, Repr

/-- SHA-256 initial hash value. -/
def sha_init : Sha256State :=
  ⟨1779033703, 3144134277, 1013904242, 2773480762,
   1359893119, 2600822924, 528734635, 1541459225⟩

/-- Merkle–Damgård padding: append `0x80`, zeros to 56 mod 64, then the
bit length as 8 big-endian bytes. -/
def sha_pad (msg : List Nat) : List Nat :=
  let len := msg.length
  let zeros := (119 - len % 64) % 64
  let bitLen := (8 * len) % 18446744073709551616
  msg ++ 128 :: List.replicate zeros 0 ++
    (List.range 8).map (fun i => bitLen >>> (8 * (7 - i)) % 256)

/-- Big-endian 32-bit words from bytes, four at a time. -/
def wordsOfBytes : List Nat → List Nat
  | a :: b :: c :: d :: rest =>
    (a * 16777216 + b * 65536 + c * 256 + d) :: wordsOfBytes rest
  | _ => []

/-- Extend the 16-word message schedule to 64 words: each step appends
`σ1(w[t-2]) + w[t-7] + σ0(w[t-15]) + w[t-16]`. -/
def extendSchedule : Nat → List Nat → List Nat
  | 0, ws => ws
  | n + 1, ws =>
    let t := ws.length
    let next := w32 (smallSigma1 (ws.getD (t - 2) 0) + ws.getD (t - 7) 0 +
      smallSigma0 (ws.getD (t - 15) 0) + ws.getD (t - 16) 0)
    extendSchedule n (ws ++ [next])

/-- One SHA-256 compression round. -/
def sha_round (st : Sha256State) (kw : Nat × Nat) : Sha256State :=
  let t1 := w32 (st.h7 + bigSigma1 st.h4 + sha_ch st.h4 st.h5 st.h6 +
    kw.1 + kw.2)
  let t2 := w32 (bigSigma0 st.h0 + sha_maj st.h0 st.h1 st.h2)
  ⟨w32 (t1 + t2), st.h0, st.h1, st.h2, w32 (st.h3 + t1), st.h4, st.h5, st.h6⟩

/-- Process one 64-byte block. -/
def sha_block (st : Sha256State) (block : List Nat) : Sha256State :=
  let ws := extendSchedule 48 (wordsOfBytes block)
  let r := (sha_k.zip ws).foldl sha_round st
  ⟨w32 (st.h0 + r.h0), w32 (st.h1 + r.h1), w32 (st.h2 + r.h2),
   w32 (st.h3 + r.h3), w32 (st.h4 + r.h4), w32 (st.h5 + r.h5),
   w32 (st.h6 + r.h6), w32 (st.h7 + r.h7)⟩

/-- Split a byte list into 64-byte chunks; the fuel (at least the list
length) makes the recursion structural. -/
def chunks64Fuel : Nat → List Nat → List (List Nat)
  | 0, _ => []
  | _, [] => []
  | fuel + 1, l => l.take 64 :: chunks64Fuel fuel (l.drop 64)

/-- Split a byte list into 64-byte chunks. -/
def chunks64 (l : List Nat) : List (List Nat) :=
  chunks64Fuel l.length l

/-- A 32-bit word as four big-endian bytes. -/
def wordBytes (n : Nat) : List Nat :=
  [n / 16777216 % 256, n / 65536 % 256, n / 256 % 256, n % 256]

/-- The 32 digest bytes of a final state. -/
def sha_digest (st : Sha256State) : List Nat :=
  wordBytes st.h0 ++ wordBytes st.h1 ++ wordBytes st.h2 ++ wordBytes st.h3 ++
  wordBytes st.h4 ++ wordBytes st.h5 ++ wordBytes st.h6 ++ wordBytes st.h7

/-- SHA-256 of a byte list: the 32 digest bytes. -/
def sha256 (msg : List Nat) : List Nat :=
  sha_digest ((chunks64 (sha_pad msg)).foldl sha_block sha_init)

/-- One lowercase hex digit. -/
def hexDigit (n : Nat) : Char :=
  if n < 10 then Char.ofNat (48 + n) else Char.ofNat (87 + n)

/-- Lowercase hex encoding of a byte list (`.hexdigest()`). -/
def hexOfBytes (bs : List Nat) : String :=
  String.mk ((bs.map (fun b => [hexDigit (b / 16), hexDigit (b % 16)])).flatten)

/-- `main.compute_content_hash`: hex SHA-256 of the UTF-8 bytes of the
normalized text. -/
def compute_content_hash (text : String) : String :=
  hexOfBytes (sha256 (utf8Encode (normalizeChars text.data)))

/-! ### JSON values and the `ExtractedDeal` schema check
(`llm_service.validate_and_parse`: `json.loads` then pydantic validation
against `models.ExtractedDeal`). -/

/-- A decoded JSON value, the result of `json.loads`. -/
inductive Json
  | str (s : String)
  | num (n : Int)
  | jbool (b : Bool)
  | null
  | arr (elems : List Json)
  | obj (fields : List (String × Json))
deriving Repr

/-- A Python exception raised inside `validate_and_parse`.  The retry loop's
`except (json.JSONDecodeError, ValidationError)` catches the first two kinds;
a `TypeError` (from `ExtractedDeal(**data)` on a non-dict) is not caught
there and escapes to the outer handler. -/
inductive PyExn
  | jsonDecodeError (msg : String)
  | validationError (msg : String)
  | typeError (msg : String)
deriving DecidableEq, Repr

/-- Whether the retry loop's `except` clause catches the exception. -/
def PyExn.caughtByLoop : PyExn → Bool
  | .jsonDecodeError _ => true
  | .validationError _ => true
  | .typeError _ => false

/-- `str(e)`. -/
def PyExn.message : PyExn → String
  | .jsonDecodeError m => m
  | .validationError m => m
  | .typeError m => m

/-- Lookup of a key in a decoded JSON object. -/
def jLookup (fields : List (String × Json)) (k : String) : Option Json :=
  (fields.find? (fun p => p.1 == k)).map (fun p => p.2)

/-- A JSON value as a Python `str`, if it is one. -/
def asStr : Json → Option String
  | .str s => some s
  | _ => none

/-- A JSON value as a `list[str]`, if it is one. -/
def asStrList : Json → Option (List String)
  | .arr es => es.mapM asStr
  | _ => none

/-- A JSON value as a `dict[str, str]`, if it is one. -/
def asStrMap : Json → Option (List (String × String))
  | .obj fs => fs.mapM (fun p => (asStr p.2).map (fun v => (p.1, v)))
  | _ => none

/-- A required `str` field. -/
def reqStr (fields : List (String × Json)) (name : String) :
    Except PyExn String :=
  match jLookup fields name with
  | none => .error (.validationError (name ++ ": Field required"))
  | some v =>
    match asStr v with
    | some s => .ok s
    | none =>
      .error (.validationError (name ++ ": Input should be a valid string"))

/-- An optional `str` field with default `""`. -/
def optStr (fields : List (String × Json)) (name : String) :
    Except PyExn String :=
  match jLookup fields name with
  | none => .ok ""
  | some v =>
    match asStr v with
    | some s => .ok s
    | none =>
      .error (.validationError (name ++ ": Input should be a valid string"))

/-- A `list[str]` field; `dflt = none` means required. -/
def strListField (fields : List (String × Json)) (name : String)
    (dflt : Option (List String)) : Except PyExn (List String) :=
  match jLookup fields name with
  | none =>
    match dflt with
    | some d => .ok d
    | none => .error (.validationError (name ++ ": Field required"))
  | some v =>
    match asStrList v with
    | some l => .ok l
    | none =>
      .error (.validationError (name ++ ": Input should be a valid list"))

/-- An optional `dict[str, str]` field with default `{}` (empty mapping). -/
def strMapField (fields : List (String × Json)) (name : String) :
    Except PyExn (List (String × String)) :=
  match jLookup fields name with
  | none => .ok []
  | some v =>
    match asStrMap v with
    | some m => .ok m
    | none =>
      .error
        (.validationError (name ++ ": Input should be a valid dictionary"))

/-- `ExtractedDeal(**data)`: pydantic validation of a decoded JSON value.
Fields are checked in declaration order; extra keys are ignored.  A
non-object argument raises `TypeError`, which the retry loop does not
catch. -/
def extractedDealOfJson : Json → Except PyExn ExtractedDeal
  | .obj fields => do
    let cn ← reqStr fields "company_name"
    if cn.length < 1 then
      .error (.validationError
        "company_name: String should have at least 1 character")
    else do
      let fo ← strListField fields "founders" (some [])
      let se ← optStr fields "sector"
      let ge ← optStr fields "geography"
      let st ← optStr fields "stage"
      let rs ← optStr fields "round_size"
      let me ← strMapField fields "metrics"
      let ib ← strListField fields "investment_brief" none
      if ib.length < 1 then
        .error (.validationError
          "investment_brief: List should have at least 1 item after validation")
      else if 15 < ib.length then
        .error (.validationError
          "investment_brief: List should have at most 15 items after validation")
      else do
        let tg ← strListField fields "tags" (some [])
        .ok ⟨cn, fo, se, ge, st, rs, me, ib, tg⟩
  | _ => .error (.typeError "argument after double-star must be a mapping")

/-- `llm_service.validate_and_parse`: `json.loads` (the decoder is the
`parse` parameter; a decode failure is a `json.JSONDecodeError`) followed by
`ExtractedDeal(**data)`. -/
def validateAndParse (parse : String → Except String Json) (resp : String) :
    Except PyExn ExtractedDeal :=
  match parse resp with
  | .error m => .error (.jsonDecodeError m)
  | .ok j => extractedDealOfJson j

/-! ### Submission endpoint (`main.create_deal_endpoint`) -/

/-- `main.MAX_INPUT_SIZE`. -/
def MAX_INPUT_SIZE : Nat := 10 * 1024

/-- How `create_deal_endpoint` answers one request. -/
inductive EndpointOutcome
  | created (deal : Deal)
  | inputTooLarge
  | duplicateDeal (existing_id : String)
deriving DecidableEq, Repr

/-- The observable effect of one call to `create_deal_endpoint`: the HTTP
outcome, the store afterwards, and the deal ids handed to
`background_tasks.add_task` for extraction. -/
structure EndpointResult where
  outcome : EndpointOutcome
  store : Store
  queuedTasks : List String
deriving DecidableEq, Repr

/-- `main.create_deal_endpoint`: size check (413), content hash, duplicate
check (409 carrying the existing id), then `create_deal`.  `new_id` stands
for the generated `uuid4`.  `queuedTasks` is empty on every path because the
`background_tasks.add_task(process_deal_extraction, deal_id)` line in the
source is commented out. -/
def createDealEndpoint (store : Store) (new_id raw_text : String) :
    EndpointResult :=
  if MAX_INPUT_SIZE < (utf8Encode raw_text.data).length then
    ⟨.inputTooLarge, store, []⟩
  else
    let content_hash := compute_content_hash raw_text
    match getDealByHash store content_hash with
    | some existing => ⟨.duplicateDeal existing.id, store, []⟩
    | none =>
      let p := createDeal store new_id content_hash raw_text
      ⟨.created p.2, p.1, []⟩

/-! ### Status broadcaster (`websocket.WebSocketManager`)

Connections are identified by naturals; whether a connection's `send_text`
succeeds is the `send` parameter (a closed connection is one whose send
fails). -/

/-- The wire message built by `broadcast_status`
(`models.WebSocketMessage`; its `data` field is never set there). -/
structure WsMessage where
  type : String
  deal_id : String
  status : DealStatus
  error : Option String
deriving DecidableEq, Repr

/-- `websocket.WebSocketManager`: map from deal id to the set of subscribed
connections. -/
structure WSManager where
  connections : List (String × Finset ℕ)
deriving DecidableEq

/-- The subscriber set for a deal id, if one exists. -/
def wsLookup (m : WSManager) (deal_id : String) : Option (Finset ℕ) :=
  (m.connections.find? (fun p => p.1 == deal_id)).map (fun p => p.2)

/-- The observable effect of one `broadcast_status` call: the manager
afterwards, the message, the snapshot of connections the send loop iterated
over, those delivered to, and the dead ones pruned afterwards. -/
structure BroadcastResult where
  manager : WSManager
  message : Option WsMessage
  attempted : Finset ℕ
  delivered : Finset ℕ
  dead : Finset ℕ
deriving DecidableEq

/-- `WebSocketManager.broadcast_status`: no set for the id means return at
once; otherwise build the message, attempt a send to every connection in the
set, collect the failed ones in `dead_connections`, and only after the loop
discard each dead connection from the live set. -/
def broadcastStatus (send : ℕ → Bool) (m : WSManager) (deal_id : String)
    (st : DealStatus) (error : Option String) : BroadcastResult :=
  match wsLookup m deal_id with
  | none => ⟨m, none, ∅, ∅, ∅⟩
  | some conns =>
    let msg : WsMessage := ⟨"status_update", deal_id, st, error⟩
    let dead := conns.filter (fun c => send c = false)
    let live := conns \ dead
    ⟨⟨m.connections.map (fun p => if p.1 == deal_id then (p.1, live) else p)⟩,
     some msg, conns, conns.filter (fun c => send c = true), dead⟩

/-! ### Extraction orchestrator (`llm_service.process_deal_extraction`)

The LLM provider and the JSON decoder are external behaviours; store
operations succeed or raise according to the `RunEnv` flags (`database.py`
wraps each operation in its own connection, so a failure models the
operation raising). -/

/-- `llm_service.MAX_RETRIES`. -/
def MAX_RETRIES : Nat := 2

/-- External behaviour of the LLM client and the JSON decoder:
`extract` is `extract_deal_data` (input the raw text, error a transport
failure), `repair` is `repair_json` (inputs the previous response and the
validation error description), `parse` is `json.loads`. -/
structure LLMBehavior where
  extract : String → Except String String
  repair : String → String → Except String String
  parse : String → Except String Json

/-- Environment of one orchestration run: the store contents at start, the
external behaviours, whether each kind of store call succeeds, and whether a
`ws_manager` was passed (`process_deal_extraction`'s second argument
defaults to `None`). -/
structure RunEnv where
  store : Store
  llm : LLMBehavior
  updateStatusOk : Bool
  updateExtractedOk : Bool
  getDealOk : Bool
  hasWs : Bool

/-- Observable state threaded through a run: the store, the events
published through the manager (status and error of each `broadcast_status`
call), the statuses persisted so far in order, and how many repair calls
and validation attempts were made. -/
structure RunState where
  store : Store
  events : List (DealStatus × Option String)
  statusWrites : List DealStatus
  repairCalls : Nat
  attempts : Nat
deriving Repr

/-- State at the start of a run. -/
def initRunState (store : Store) : RunState := ⟨store, [], [], 0, 0⟩

/-- Effect of a successful `update_deal_status` call. -/
def stStatus (s : RunState) (deal_id : String) (st : DealStatus)
    (err : Option String) : RunState :=
  { s with
    store := updateDealStatus s.store deal_id st err
    statusWrites := s.statusWrites ++ [st] }

/-- Effect of a `broadcast_status` call, published only when a manager was
passed. -/
def stPublish (hasWs : Bool) (s : RunState) (st : DealStatus)
    (err : Option String) : RunState :=
  if hasWs then { s with events := s.events ++ [(st, err)] } else s

/-- Effect of a successful `update_deal_extracted` call: all structured
fields and `status = completed` in one update. -/
def stExtracted (s : RunState) (deal_id : String) (e : ExtractedDeal) :
    RunState :=
  { s with
    store := updateDealExtracted s.store deal_id e
    statusWrites := s.statusWrites ++ [DealStatus.completed] }

/-- The outer `except Exception` handler: mark the deal failed with the
message and publish; if that `update_deal_status` itself raises, the
exception escapes to the caller (`some` in the second component). -/
def failHandler (env : RunEnv) (deal_id msg : String) (s : RunState) :
    RunState × Option String :=
  if env.updateStatusOk then
    let s1 := stStatus s deal_id DealStatus.failed (some msg)
    (stPublish env.hasWs s1 DealStatus.failed (some msg), none)
  else (s, some "StoreError: update failed")

/-- How the `for attempt in range(MAX_RETRIES)` loop ends. -/
inductive LoopResult
  | completed (s : RunState)
  | exhausted (s : RunState) (lastErr : Option String)
  | raised (s : RunState) (msg : String)

/-- The validation loop.  The first argument is the number of iterations
left; `attempt < MAX_RETRIES - 1` in the source is `0 < rem` here.  A
validation success updates the record (that store call may raise) and
returns; a caught failure records the error and, when attempts remain,
makes one repair call; any other exception ends the loop as `raised`. -/
def validationLoop (env : RunEnv) (deal_id : String) :
    Nat → String → Option String → RunState → LoopResult
  | 0, _resp, lastErr, s => .exhausted s lastErr
  | rem + 1, resp, _lastErr, s =>
    let s1 := { s with attempts := s.attempts + 1 }
    match validateAndParse env.llm.parse resp with
    | .ok extracted =>
      if env.updateExtractedOk then
        let s2 := stExtracted s1 deal_id extracted
        .completed (stPublish env.hasWs s2 DealStatus.completed none)
      else .raised s1 "StoreError: update failed"
    | .error exn =>
      if exn.caughtByLoop then
        let msg := exn.message
        if 0 < rem then
          match env.llm.repair resp msg with
          | .ok newResp =>
            validationLoop env deal_id rem newResp (some msg)
              { s1 with repairCalls := s1.repairCalls + 1 }
          | .error tmsg =>
            .raised { s1 with repairCalls := s1.repairCalls + 1 } tmsg
        else validationLoop env deal_id rem resp (some msg) s1
      else .raised s1 exn.message

/-- The observable state carried by a loop outcome. -/
def LoopResult.state : LoopResult → RunState
  | .completed s => s
  | .exhausted s _ => s
  | .raised s _ => s

/-- `llm_service.process_deal_extraction`.  Returns the final observable
state and `none` when the call returns normally, or `some msg` when an
exception escapes to the caller. -/
def processDealExtraction (env : RunEnv) (deal_id : String) :
    RunState × Option String :=
  let s0 := initRunState env.store
  if env.updateStatusOk then
    let s1 := stPublish env.hasWs
      (stStatus s0 deal_id DealStatus.extracting none) DealStatus.extracting
      none
    if env.getDealOk then
      match getDealById s1.store deal_id with
      | none => failHandler env deal_id ("Deal " ++ deal_id ++ " not found") s1
      | some deal =>
        match env.llm.extract deal.raw_text with
        | .error msg => failHandler env deal_id msg s1
        | .ok resp =>
          let s2 := stPublish env.hasWs
            (stStatus s1 deal_id DealStatus.validating none)
            DealStatus.validating none
          match validationLoop env deal_id MAX_RETRIES resp none s2 with
          | .completed s3 => (s3, none)
          | .exhausted s3 lastErr =>
            if env.updateStatusOk then
              let s4 := stStatus s3 deal_id DealStatus.failed lastErr
              (stPublish env.hasWs s4 DealStatus.failed lastErr, none)
            else failHandler env deal_id "StoreError: update failed" s3
          | .raised s3 msg => failHandler env deal_id msg s3
    else failHandler env deal_id "StoreError: read failed" s1
  else failHandler env deal_id "StoreError: update failed" s0

/-! ### Core store operations as a sequence (for the data-model invariant)

The orchestrator mutates a deal only through `update_deal_status` (with
statuses `extracting`, `validating`, `failed` at its call sites) and
`update_deal_extracted`. -/

/-- One core mutation of a deal record after creation. -/
inductive CoreOp
  | setStatus (st : DealStatus) (err : Option String)
  | setExtracted (e : ExtractedDeal)

/-- Apply one core operation to the store. -/
def applyOp (store : Store) (deal_id : String) : CoreOp → Store
  | .setStatus st err => updateDealStatus store deal_id st err
  | .setExtracted e => updateDealExtracted store deal_id e

/-- Apply a sequence of core operations in order. -/
def applyOps (store : Store) (deal_id : String) (ops : List CoreOp) : Store :=
  ops.foldl (fun st op => applyOp st deal_id op) store

/-- The action of one core operation on the targeted row. -/
def opFn : CoreOp → Deal → Deal
  | .setStatus st err => fun d => { d with status := st, last_error := err }
  | .setExtracted e => fun d =>
    { d with
      status := DealStatus.completed
      company_name := some e.company_name
      founders := some e.founders
      sector := some e.sector
      geography := some e.geography
      stage := some e.stage
      round_size := some e.round_size
      metrics := some e.metrics
      investment_brief := some e.investment_brief
      tags := some e.tags }

/-- All nine structured fields are unset. -/
def fieldsAllUnset (d : Deal) : Prop :=
  d.company_name = none ∧ d.founders = none ∧ d.sector = none ∧
  d.geography = none ∧ d.stage = none ∧ d.round_size = none ∧
  d.metrics = none ∧ d.investment_brief = none ∧ d.tags = none

/-- All nine structured fields are set. -/
def fieldsAllSet (d : Deal) : Prop :=
  d.company_name ≠ none ∧ d.founders ≠ none ∧ d.sector ≠ none ∧
  d.geography ≠ none ∧ d.stage ≠ none ∧ d.round_size ≠ none ∧
  d.metrics ≠ none ∧ d.investment_brief ≠ none ∧ d.tags ≠ none

/-- The all-or-nothing coupling of the structured fields with the status, as
the data-model invariant states it: all unset while the status is
non-terminal or failed, or all set with status completed. -/
def statusFieldCoupling (d : Deal) : Prop :=
  (fieldsAllUnset d ∧ d.status ≠ DealStatus.completed) ∨
  (fieldsAllSet d ∧ d.status = DealStatus.completed)

instance (d : Deal) : Decidable (fieldsAllUnset d) := by
  unfold fieldsAllUnset
  infer_instance

instance (d : Deal) : Decidable (fieldsAllSet d) := by
  unfold fieldsAllSet
  infer_instance

instance (d : Deal) : Decidable (statusFieldCoupling d) := by
  unfold statusFieldCoupling
  infer_instance

/-- The fold of core-operation actions over a single row. -/
def dealFold (d : Deal) (ops : List CoreOp) : Deal :=
  ops.foldl (fun d op => opFn op d) d

/-- Whether a core operation is the extracted-fields update. -/
def CoreOp.isSetExtracted : CoreOp → Bool
  | .setExtracted _ => true
  | _ => false

/-! ### Concrete fixtures (used by witnesses and counterexamples) -/

/-- A valid extracted deal, as in the spec's end-to-end example. -/
def sampleExtracted : ExtractedDeal :=
  ⟨"Acme Corp", [], "", "", "", "", [], ["Strong team"], []⟩

/-- The decoded JSON object corresponding to `sampleExtracted`. -/
def goodJson : Json :=
  Json.obj [("company_name", Json.str "Acme Corp"),
            ("investment_brief", Json.arr [Json.str "Strong team"])]

/-- A store holding one freshly created deal. -/
def sampleStore : Store :=
  (createDeal [] "id-1" "hash-1" "Acme raised 5M").1

/-- The row of `sampleStore`. -/
def sampleDeal : Deal :=
  (createDeal [] "id-1" "hash-1" "Acme raised 5M").2

/-- The submission text of the spec's end-to-end example. -/
def acmeText : String :=
  "Acme Corp raised a $5M seed round led by XYZ Ventures."

/-- Decoder behaviour: only the response string "R1" decodes, to
`goodJson`. -/
def parseOnlyR1 : String → Except String Json :=
  fun s => if s == "R1" then .ok goodJson else .error "Expecting value"

/-- Decoder behaviour: only the repaired response "R2" decodes. -/
def parseOnlyR2 : String → Except String Json :=
  fun s => if s == "R2" then .ok goodJson else .error "Expecting value"

/-- LLM answering "R1" first and "R2" on repair. -/
def llmFirstValid : LLMBehavior :=
  ⟨fun _ => .ok "R1", fun _ _ => .ok "R2", parseOnlyR1⟩

/-- LLM whose first answer fails to decode but whose repair decodes. -/
def llmRepairValid : LLMBehavior :=
  ⟨fun _ => .ok "R1", fun _ _ => .ok "R2", parseOnlyR2⟩

/-- LLM none of whose answers ever decode. -/
def llmNeverValid : LLMBehavior :=
  ⟨fun _ => .ok "R1", fun _ _ => .ok "R2", fun _ => .error "Expecting value"⟩

/-- Healthy collaborators, first answer valid. -/
def envHappy : RunEnv := ⟨sampleStore, llmFirstValid, true, true, true, true⟩

/-- Healthy collaborators, repair needed and successful. -/
def envRepair : RunEnv := ⟨sampleStore, llmRepairValid, true, true, true, true⟩

/-- Healthy collaborators, every validation attempt fails. -/
def envAllFail : RunEnv := ⟨sampleStore, llmNeverValid, true, true, true, true⟩

/-- A store whose `update_deal_status` raises on every call. -/
def envStoreDown : RunEnv := ⟨sampleStore, llmFirstValid, false, true, true, true⟩

/-- A store holding a deal whose hash is the hash of "dup deal". -/
def dupStore : Store :=
  (createDeal [] "id-0" (compute_content_hash "dup deal") "dup deal").1

/-- `dupStore` after its deal failed extraction. -/
def dupFailedStore : Store :=
  updateDealStatus dupStore "id-0" DealStatus.failed (some "Expecting value")

/-- A manager with three subscribers to one deal. -/
def sampleWS : WSManager := ⟨[("id-1", {0, 1, 2})]⟩

/-- Send succeeds except on connection 1 (the closed one). -/
def sendNot1 : ℕ → Bool := fun c => c != 1

/-- The operation sequence refuting the literal all-or-nothing claim: a
successful extracted-fields update followed by a failed-status update (the
sequence the orchestrator performs when a store error occurs after
`update_deal_extracted` has committed). -/
def opsViolating : List CoreOp :=
  [CoreOp.setExtracted sampleExtracted,
   CoreOp.setStatus DealStatus.failed (some "StoreError: read failed")]

/-! ### Helper lemmas -/

/-- Updating a row's status commutes with looking the row up. -/
theorem getDealById_updateDealStatus (store : Store) (deal_id : String)
    (st : DealStatus) (err : Option String) :
    getDealById (updateDealStatus store deal_id st err) deal_id =
      (getDealById store deal_id).map
        (fun d => { d with status := st, last_error := err }) := by
  unfold getDealById updateDealStatus
  rw [List.find?_map]
  have hp : ((fun d : Deal => d.id == deal_id) ∘
      (fun d : Deal =>
        if d.id == deal_id then { d with status := st, last_error := err }
        else d)) = fun d : Deal => d.id == deal_id := by
    funext d
    by_cases hid : d.id = deal_id <;> simp [hid]
  rw [hp]
  cases hfind : store.find? (fun d => d.id == deal_id) with
  | none => rfl
  | some a =>
    have ha : a.id = deal_id := by
      have := List.find?_some hfind
      simpa using this
    simp [ha]

/-- Updating a row's extracted fields commutes with looking the row up. -/
theorem getDealById_updateDealExtracted (store : Store) (deal_id : String)
    (e : ExtractedDeal) :
    getDealById (updateDealExtracted store deal_id e) deal_id =
      (getDealById store deal_id).map (opFn (CoreOp.setExtracted e)) := by
  unfold getDealById updateDealExtracted
  rw [List.find?_map]
  have hp : ((fun d : Deal => d.id == deal_id) ∘
      (fun d : Deal =>
        if d.id == deal_id then opFn (CoreOp.setExtracted e) d else d)) =
      fun d : Deal => d.id == deal_id := by
    funext d
    by_cases hid : d.id = deal_id <;> simp [hid, opFn]
  have hbody : (fun d : Deal =>
      if d.id == deal_id then
        { d with
          status := DealStatus.completed
          company_name := some e.company_name
          founders := some e.founders
          sector := some e.sector
          geography := some e.geography
          stage := some e.stage
          round_size := some e.round_size
          metrics := some e.metrics
          investment_brief := some e.investment_brief
          tags := some e.tags }
      else d) = fun d : Deal =>
      if d.id == deal_id then opFn (CoreOp.setExtracted e) d else d := by
    funext d
    by_cases hid : d.id = deal_id <;> simp [hid, opFn]
  rw [hbody, hp]
  cases hfind : store.find? (fun d => d.id == deal_id) with
  | none => rfl
  | some a =>
    have ha : a.id = deal_id := by
      have := List.find?_some hfind
      simpa using this
    simp [ha]

/-- `update_deal_status` as the action on the found row. -/
theorem getDealById_applyOp (store : Store) (deal_id : String) (op : CoreOp) :
    getDealById (applyOp store deal_id op) deal_id =
      (getDealById store deal_id).map (opFn op) := by
  cases op with
  | setStatus st err => exact getDealById_updateDealStatus store deal_id st err
  | setExtracted e => exact getDealById_updateDealExtracted store deal_id e

theorem getDealById_applyOps (deal_id : String) (ops : List CoreOp) :
    ∀ store : Store,
      getDealById (applyOps store deal_id ops) deal_id =
        (getDealById store deal_id).map (fun d => dealFold d ops) := by
  induction ops with
  | nil =>
    intro store
    simp [applyOps, dealFold]
  | cons op rest ih =>
    intro store
    have h1 : applyOps store deal_id (op :: rest) =
        applyOps (applyOp store deal_id op) deal_id rest := rfl
    rw [h1, ih, getDealById_applyOp]
    cases getDealById store deal_id <;> simp [dealFold]

/-- Every core-operation action keeps `id`, `content_hash` and `raw_text`. -/
theorem opFn_keeps_identity (op : CoreOp) (d : Deal) :
    (opFn op d).id = d.id ∧ (opFn op d).content_hash = d.content_hash ∧
      (opFn op d).raw_text = d.raw_text := by
  cases op <;> simp [opFn]

theorem dealFold_keeps_identity (ops : List CoreOp) :
    ∀ d : Deal, (dealFold d ops).id = d.id ∧
      (dealFold d ops).content_hash = d.content_hash ∧
      (dealFold d ops).raw_text = d.raw_text := by
  induction ops with
  | nil => intro d; simp [dealFold]
  | cons op rest ih =>
    intro d
    have hstep : dealFold d (op :: rest) = dealFold (opFn op d) rest := rfl
    rw [hstep]
    obtain ⟨h1, h2, h3⟩ := ih (opFn op d)
    obtain ⟨g1, g2, g3⟩ := opFn_keeps_identity op d
    exact ⟨h1.trans g1, h2.trans g2, h3.trans g3⟩

/-- Each action leaves the structured fields all unset or makes them all
set. -/
theorem opFn_all_or_nothing (op : CoreOp) (d : Deal)
    (h : fieldsAllUnset d ∨ fieldsAllSet d) :
    fieldsAllUnset (opFn op d) ∨ fieldsAllSet (opFn op d) := by
  cases op with
  | setStatus st err =>
    cases h with
    | inl h => exact Or.inl h
    | inr h => exact Or.inr h
  | setExtracted e =>
    right
    simp [opFn, fieldsAllSet]

theorem dealFold_all_or_nothing (ops : List CoreOp) :
    ∀ d : Deal, (fieldsAllUnset d ∨ fieldsAllSet d) →
      fieldsAllUnset (dealFold d ops) ∨ fieldsAllSet (dealFold d ops) := by
  induction ops with
  | nil => intro d h; simpa [dealFold] using h
  | cons op rest ih =>
    intro d h
    exact ih (opFn op d) (opFn_all_or_nothing op d h)

/-- Without an extracted-fields update the structured fields stay unset. -/
theorem dealFold_unset_of_no_extract (ops : List CoreOp) :
    ∀ d : Deal, fieldsAllUnset d →
      (∀ op ∈ ops, op.isSetExtracted = false) →
      fieldsAllUnset (dealFold d ops) := by
  induction ops with
  | nil => intro d h _; simpa [dealFold] using h
  | cons op rest ih =>
    intro d h hops
    have hop := hops op (List.mem_cons_self op rest)
    cases op with
    | setStatus st err =>
      have hstep : dealFold d (.setStatus st err :: rest) =
          dealFold (opFn (.setStatus st err) d) rest := rfl
      rw [hstep]
      refine ih _ ?_ (fun o ho => hops o (List.mem_cons_of_mem _ ho))
      simpa [opFn, fieldsAllUnset] using h
    | setExtracted e => simp [CoreOp.isSetExtracted] at hop

/-- The digest always has 32 bytes. -/
theorem sha256_length (msg : List Nat) : (sha256 msg).length = 32 := by
  simp [sha256, sha_digest, wordBytes]

/-- Hex encoding doubles the length. -/
theorem hexOfBytes_length (bs : List Nat) :
    (hexOfBytes bs).length = 2 * bs.length := by
  show ((bs.map (fun b => [hexDigit (b / 16), hexDigit (b % 16)])).flatten).length
    = 2 * bs.length
  induction bs with
  | nil => rfl
  | cons b rest ih => simp [ih]; omega

/-- A passing size check and an existing row with the submission's hash make
the endpoint answer with a conflict carrying the existing id, leaving the
store unchanged and queueing nothing. -/
theorem endpoint_duplicate_helper (store : Store) (new_id raw_text : String)
    (d : Deal)
    (hsize : (utf8Encode raw_text.data).length ≤ MAX_INPUT_SIZE)
    (hdup : getDealByHash store (compute_content_hash raw_text) = some d) :
    createDealEndpoint store new_id raw_text =
      ⟨EndpointOutcome.duplicateDeal d.id, store, []⟩ := by
  unfold createDealEndpoint
  rw [if_neg (by omega)]
  simp [hdup]

/-- Replacing the subscriber set of an id the manager knows. -/
theorem wsLookup_update (m : WSManager) (deal_id : String) (s : Finset ℕ)
    (conns : Finset ℕ) (h : wsLookup m deal_id = some conns) :
    wsLookup
      ⟨m.connections.map
        (fun p => if p.1 == deal_id then (p.1, s) else p)⟩ deal_id =
      some s := by
  unfold wsLookup at h ⊢
  rw [List.find?_map]
  have hp : ((fun p : String × Finset ℕ => p.1 == deal_id) ∘
      (fun p : String × Finset ℕ =>
        if p.1 == deal_id then (p.1, s) else p)) =
      fun p : String × Finset ℕ => p.1 == deal_id := by
    funext p
    by_cases hid : p.1 = deal_id <;> simp [hid]
  rw [hp]
  cases hfind : m.connections.find? (fun p => p.1 == deal_id) with
  | none => rw [hfind] at h; exact absurd h (by simp)
  | some p =>
    rw [hfind] at h
    have hid : p.1 = deal_id := by
      have := List.find?_some hfind
      simpa using this
    simp [hid]

/-! ### Claims -/

/-- C9: the content hash is deterministic and depends only on the
normalized (lowercased, whitespace-collapsed, trimmed) text — in particular
`hash(" A  b") = hash("a b")` — and it is the hex-encoded 256-bit SHA-256
digest of the normalized text (64 hex characters). -/
theorem claim_C9 :
    (∀ s t : String, normalize s = normalize t →
      compute_content_hash s = compute_content_hash t) ∧
    compute_content_hash " A  b" = compute_content_hash "a b" ∧
    (∀ t : String,
      compute_content_hash t =
        hexOfBytes (sha256 (utf8Encode (normalize t).data)) ∧
      (compute_content_hash t).length = 64) := by
  have hnorm : ∀ s t : String, normalize s = normalize t →
      compute_content_hash s = compute_content_hash t := by
    intro s t h
    have h' : normalizeChars s.data = normalizeChars t.data := by
      have hd := congrArg String.data h
      simpa [normalize] using hd
    simp [compute_content_hash, h']
  refine ⟨hnorm, hnorm _ _ (by decide), ?_⟩
  intro t
  refine ⟨rfl, ?_⟩
  have h1 : compute_content_hash t =
      hexOfBytes (sha256 (utf8Encode (normalizeChars t.data))) := rfl
  rw [h1, hexOfBytes_length, sha256_length]

/-- C9 witness: the two concretely normal-form-equal texts hash equal. -/
theorem claim_C9_witness :
    compute_content_hash " A  b" = compute_content_hash "a b" :=
  claim_C9.1 " A  b" "a b" (by decide)

/-- C1: evidence of the divergence — on a fresh store the endpoint creates
the pending record, but hands nothing to the orchestrator: the queued-task
list is empty, because the `background_tasks.add_task` call in the source
is commented out, so no extraction run starts for the new deal id. -/
theorem claim_C1 :
    (createDealEndpoint [] "id-1" acmeText).queuedTasks = [] ∧
    ((createDealEndpoint [] "id-1" acmeText).store.map
      (fun d => (d.id, d.status))) = [("id-1", DealStatus.pending)] := by
  decide

/-- C7: a submission whose content hash matches an existing row is rejected
with a conflict carrying the existing deal's id; the store is unchanged, so
no second record is created. -/
theorem claim_C7 (store : Store) (new_id raw_text : String) (d : Deal)
    (hsize : (utf8Encode raw_text.data).length ≤ MAX_INPUT_SIZE)
    (hdup : getDealByHash store (compute_content_hash raw_text) = some d) :
    createDealEndpoint store new_id raw_text =
      ⟨EndpointOutcome.duplicateDeal d.id, store, []⟩ :=
  endpoint_duplicate_helper store new_id raw_text d hsize hdup

set_option maxRecDepth 4000 in
/-- C7 witness. -/
theorem claim_C7_witness :
    createDealEndpoint dupStore "id-9" "dup deal" =
      ⟨EndpointOutcome.duplicateDeal "id-0", dupStore, []⟩ := by
  have h := claim_C7 dupStore "id-9" "dup deal"
    ((createDeal [] "id-0" (compute_content_hash "dup deal") "dup deal").2)
    (by decide) (by decide)
  simpa using h

/-- C10: duplicate rejection ignores the existing deal's status — even when
the matching row is `failed` the submission is rejected with a conflict, the
store is unchanged and nothing is queued, so the public interface offers no
way to re-run extraction on the same normalized text. -/
theorem claim_C10 (store : Store) (new_id raw_text : String) (d : Deal)
    (hsize : (utf8Encode raw_text.data).length ≤ MAX_INPUT_SIZE)
    (hdup : getDealByHash store (compute_content_hash raw_text) = some d)
    (_hfailed : d.status = DealStatus.failed) :
    createDealEndpoint store new_id raw_text =
      ⟨EndpointOutcome.duplicateDeal d.id, store, []⟩ :=
  endpoint_duplicate_helper store new_id raw_text d hsize hdup

set_option maxRecDepth 4000 in
/-- C10 witness: the matching row of `dupFailedStore` is failed and the
submission is still rejected in its favour. -/
theorem claim_C10_witness :
    createDealEndpoint dupFailedStore "id-9" "dup deal" =
      ⟨EndpointOutcome.duplicateDeal "id-0", dupFailedStore, []⟩ := by
  have h := claim_C10 dupFailedStore "id-9" "dup deal"
    ({ (createDeal [] "id-0" (compute_content_hash "dup deal") "dup deal").2
        with
        status := DealStatus.failed
        last_error := some "Expecting value" })
    (by decide) (by decide) (by decide)
  simpa using h

/-- C6: publishing to a deal id with no subscriber set is a no-op; with a
subscriber set in which exactly one connection's send fails, the status
event is delivered to every other connection, only the failed one is
removed, the send loop attempts the full snapshot, and the pruning happens
after all attempts. -/
theorem claim_C6 (send : ℕ → Bool) (m : WSManager) (deal_id : String)
    (st : DealStatus) (err : Option String) :
    (wsLookup m deal_id = none →
      broadcastStatus send m deal_id st err = ⟨m, none, ∅, ∅, ∅⟩) ∧
    (∀ (conns : Finset ℕ) (c : ℕ),
      wsLookup m deal_id = some conns → c ∈ conns → send c = false →
      (∀ x ∈ conns, x ≠ c → send x = true) →
      (broadcastStatus send m deal_id st err).attempted = conns ∧
      (broadcastStatus send m deal_id st err).delivered = conns.erase c ∧
      (broadcastStatus send m deal_id st err).delivered.card + 1 =
        conns.card ∧
      (broadcastStatus send m deal_id st err).dead = {c} ∧
      wsLookup (broadcastStatus send m deal_id st err).manager deal_id =
        some (conns.erase c) ∧
      (broadcastStatus send m deal_id st err).message =
        some ⟨"status_update", deal_id, st, err⟩) := by
  constructor
  · intro h
    simp [broadcastStatus, h]
  · intro conns c hm hc hdead hlive
    have hdeadset : conns.filter (fun x => send x = false) = {c} := by
      ext x
      simp only [Finset.mem_filter, Finset.mem_singleton]
      constructor
      · rintro ⟨hx, hsx⟩
        by_contra hne
        have := hlive x hx hne
        rw [this] at hsx
        exact Bool.noConfusion hsx
      · rintro rfl
        exact ⟨hc, hdead⟩
    have hdel : conns.filter (fun x => send x = true) = conns.erase c := by
      ext x
      simp only [Finset.mem_filter, Finset.mem_erase]
      constructor
      · rintro ⟨hx, hsx⟩
        refine ⟨?_, hx⟩
        rintro rfl
        rw [hdead] at hsx
        exact Bool.noConfusion hsx
      · rintro ⟨hne, hx⟩
        exact ⟨hx, hlive x hx hne⟩
    have hliveset :
        conns \ conns.filter (fun x => send x = false) = conns.erase c := by
      rw [hdeadset, Finset.sdiff_singleton_eq_erase]
    refine ⟨?_, ?_, ?_, ?_, ?_, ?_⟩
    · simp [broadcastStatus, hm]
    · simp [broadcastStatus, hm, hdel]
    · simp only [broadcastStatus, hm]
      rw [hdel]
      exact Finset.card_erase_add_one hc
    · simp [broadcastStatus, hm, hdeadset]
    · simp only [broadcastStatus, hm]
      rw [hliveset]
      exact wsLookup_update m deal_id (conns.erase c) conns hm
    · simp [broadcastStatus, hm]

/-- C6 witness: three subscribers, connection 1 closed. -/
theorem claim_C6_witness :
    (broadcastStatus sendNot1 sampleWS "id-1" DealStatus.extracting
        none).delivered = ({0, 2} : Finset ℕ) ∧
    (broadcastStatus sendNot1 sampleWS "id-1" DealStatus.extracting
        none).dead = ({1} : Finset ℕ) := by
  have h := (claim_C6 sendNot1 sampleWS "id-1" DealStatus.extracting none).2
    ({0, 1, 2} : Finset ℕ) 1 (by decide) (by decide) (by decide) (by decide)
  refine ⟨?_, h.2.2.2.1⟩
  rw [h.2.1]
  decide

/-- C8 counterexample: the core-operation sequence "extracted update, then
failed-status update" (which the orchestrator performs when the store
raises after `update_deal_extracted` committed) leaves every structured
field set while the status is `failed`, refuting the literal all-or-nothing
coupling. -/
theorem claim_C8_counterexample :
    getDealById (applyOps sampleStore "id-1" opsViolating) "id-1" =
      some (dealFold sampleDeal opsViolating) ∧
    fieldsAllSet (dealFold sampleDeal opsViolating) ∧
    (dealFold sampleDeal opsViolating).status = DealStatus.failed ∧
    ¬ statusFieldCoupling (dealFold sampleDeal opsViolating) := by
  decide

/-- C8 (amended): for every sequence of core operations after creation the
raw text and content hash never change, the structured fields are either
all unset or all set, they stay unset unless an extracted-fields update
occurs, and that update sets all of them together with status `completed`
in the same update — but a later status update may move the status away
from `completed` while the fields remain set. -/
theorem claim_C8_amended (store : Store) (deal_id : String)
    (ops : List CoreOp) (d : Deal)
    (hd : getDealById store deal_id = some d) :
    getDealById (applyOps store deal_id ops) deal_id =
      some (dealFold d ops) ∧
    (dealFold d ops).raw_text = d.raw_text ∧
    (dealFold d ops).content_hash = d.content_hash ∧
    (fieldsAllUnset d →
      fieldsAllUnset (dealFold d ops) ∨ fieldsAllSet (dealFold d ops)) ∧
    (fieldsAllUnset d → (∀ op ∈ ops, op.isSetExtracted = false) →
      fieldsAllUnset (dealFold d ops)) ∧
    (∀ (x : Deal) (e : ExtractedDeal),
      fieldsAllSet (opFn (CoreOp.setExtracted e) x) ∧
      (opFn (CoreOp.setExtracted e) x).status = DealStatus.completed) := by
  refine ⟨?_, (dealFold_keeps_identity ops d).2.2,
    (dealFold_keeps_identity ops d).2.1, ?_, ?_, ?_⟩
  · rw [getDealById_applyOps, hd]
    rfl
  · intro h
    exact dealFold_all_or_nothing ops d (Or.inl h)
  · intro h hops
    exact dealFold_unset_of_no_extract ops d h hops
  · intro x e
    exact ⟨by simp [opFn, fieldsAllSet], rfl⟩

/-- C8 amended-claim witness. -/
theorem claim_C8_amended_witness :
    getDealById (applyOps sampleStore "id-1" opsViolating) "id-1" =
      some (dealFold sampleDeal opsViolating) :=
  (claim_C8_amended sampleStore "id-1" opsViolating sampleDeal (by decide)).1

/-- Publishing never changes the store. -/
theorem stPublish_store (b : Bool) (s : RunState) (st : DealStatus)
    (err : Option String) : (stPublish b s st err).store = s.store := by
  unfold stPublish
  cases b <;> simp

/-- A validation attempt that succeeds against a healthy store completes
the run at once. -/
theorem validationLoop_ok_step (env : RunEnv) (deal_id : String) (n : Nat)
    (resp : String) (le : Option String) (s : RunState) (e : ExtractedDeal)
    (hv : validateAndParse env.llm.parse resp = Except.ok e)
    (hu : env.updateExtractedOk = true) :
    validationLoop env deal_id (n + 1) resp le s =
      LoopResult.completed
        (stPublish env.hasWs
          (stExtracted { s with attempts := s.attempts + 1 } deal_id e)
          DealStatus.completed none) := by
  unfold validationLoop
  simp only [hv, hu, if_true]

/-- A caught validation failure with attempts remaining makes exactly one
repair call and retries. -/
theorem validationLoop_err_step (env : RunEnv) (deal_id : String) (n : Nat)
    (resp newResp : String) (le : Option String) (s : RunState) (exn : PyExn)
    (hv : validateAndParse env.llm.parse resp = Except.error exn)
    (hc : exn.caughtByLoop = true)
    (hn : 0 < n)
    (hr : env.llm.repair resp exn.message = Except.ok newResp) :
    validationLoop env deal_id (n + 1) resp le s =
      validationLoop env deal_id n newResp (some exn.message)
        { s with attempts := s.attempts + 1,
                 repairCalls := s.repairCalls + 1 } := by
  conv_lhs => unfold validationLoop
  simp only [hv, hc, if_true, if_pos hn, hr]

/-- A caught validation failure on the last attempt ends the loop with that
attempt's error and no repair call. -/
theorem validationLoop_err_last (env : RunEnv) (deal_id : String)
    (resp : String) (le : Option String) (s : RunState) (exn : PyExn)
    (hv : validateAndParse env.llm.parse resp = Except.error exn)
    (hc : exn.caughtByLoop = true) :
    validationLoop env deal_id (0 + 1) resp le s =
      LoopResult.exhausted { s with attempts := s.attempts + 1 }
        (some exn.message) := by
  unfold validationLoop
  simp only [hv, hc, if_true, Nat.lt_irrefl, if_false]
  unfold validationLoop
  rfl

/-- The loop makes at most as many validation attempts as its bound. -/
theorem validationLoop_attempts_le (env : RunEnv) (deal_id : String) :
    ∀ (n : Nat) (resp : String) (le : Option String) (s : RunState),
      (validationLoop env deal_id n resp le s).state.attempts ≤
        s.attempts + n := by
  intro n
  induction n with
  | zero => intro resp le s; simp [validationLoop, LoopResult.state]
  | succ m ih =>
    intro resp le s
    unfold validationLoop
    cases hv : validateAndParse env.llm.parse resp with
    | ok extracted =>
      cases hu : env.updateExtractedOk with
      | false =>
        simp only [hu, Bool.false_eq_true, if_false, LoopResult.state]
        omega
      | true =>
        simp only [hu, if_true, LoopResult.state, stExtracted, stPublish]
        cases env.hasWs <;> simp [LoopResult.state]
    | error exn =>
      cases hcaught : exn.caughtByLoop with
      | false =>
        simp only [hcaught, Bool.false_eq_true, if_false, LoopResult.state]
        omega
      | true =>
        simp only [hcaught, if_true]
        by_cases hm : 0 < m
        · simp only [if_pos hm]
          cases hr : env.llm.repair resp exn.message with
          | ok newResp =>
            refine le_trans (ih newResp (some exn.message) _) ?_
            simp only []
            omega
          | error tmsg =>
            simp only [LoopResult.state]
            omega
        · simp only [if_neg hm]
          refine le_trans (ih resp (some exn.message) _) ?_
          simp only []
          omega

/-- Every run makes at most `MAX_RETRIES` validation attempts. -/
theorem process_attempts_le (env : RunEnv) (deal_id : String) :
    (processDealExtraction env deal_id).1.attempts ≤ MAX_RETRIES := by
  have hfa : ∀ (msg : String) (s : RunState),
      (failHandler env deal_id msg s).1.attempts = s.attempts := by
    intro msg s
    unfold failHandler stStatus stPublish
    cases env.updateStatusOk <;> cases env.hasWs <;> simp
  have hp2 : ∀ (b : Bool) (st : DealStatus) (err : Option String)
      (s : RunState), (stPublish b s st err).attempts = s.attempts := by
    intro b st err s
    unfold stPublish
    cases b <;> simp
  unfold processDealExtraction
  cases hup : env.updateStatusOk with
  | false =>
    simp only [hup, Bool.false_eq_true, if_false]
    rw [hfa]
    simp [initRunState, MAX_RETRIES]
  | true =>
    simp only [hup, if_true]
    cases hg : env.getDealOk with
    | false =>
      simp only [hg, Bool.false_eq_true, if_false]
      rw [hfa, hp2]
      simp [stStatus, initRunState, MAX_RETRIES]
    | true =>
      simp only [hg, if_true]
      cases hd : getDealById (stPublish env.hasWs (stStatus
          (initRunState env.store) deal_id DealStatus.extracting none)
          DealStatus.extracting none).store deal_id with
      | none =>
        simp only [hd]
        rw [hfa, hp2]
        simp [stStatus, initRunState, MAX_RETRIES]
      | some deal =>
        simp only [hd]
        cases hx : env.llm.extract deal.raw_text with
        | error msg =>
          simp only [hx]
          rw [hfa, hp2]
          simp [stStatus, initRunState, MAX_RETRIES]
        | ok resp =>
          simp only [hx]
          have hloopB := validationLoop_attempts_le env deal_id MAX_RETRIES
            resp none (stPublish env.hasWs (stStatus (stPublish env.hasWs
              (stStatus (initRunState env.store) deal_id
                DealStatus.extracting none) DealStatus.extracting none)
              deal_id DealStatus.validating none) DealStatus.validating none)
          have hs2attempts : (stPublish env.hasWs (stStatus (stPublish
              env.hasWs (stStatus (initRunState env.store) deal_id
              DealStatus.extracting none) DealStatus.extracting none) deal_id
              DealStatus.validating none) DealStatus.validating
              none).attempts = 0 := by
            rw [hp2]
            show (stPublish env.hasWs (stStatus (initRunState env.store)
              deal_id DealStatus.extracting none) DealStatus.extracting
              none).attempts = 0
            rw [hp2]
            rfl
          rw [hs2attempts] at hloopB
          cases hloop : validationLoop env deal_id MAX_RETRIES resp none
              (stPublish env.hasWs (stStatus (stPublish env.hasWs (stStatus
              (initRunState env.store) deal_id DealStatus.extracting none)
              DealStatus.extracting none) deal_id DealStatus.validating none)
              DealStatus.validating none) with
          | completed s3 =>
            simp only [hloop]
            rw [hloop] at hloopB
            simpa [LoopResult.state] using hloopB
          | exhausted s3 lastErr =>
            simp only [hloop, hup, if_true]
            rw [hloop] at hloopB
            rw [hp2]
            simpa [LoopResult.state] using hloopB
          | raised s3 msg =>
            simp only [hloop]
            rw [hfa]
            rw [hloop] at hloopB
            simpa [LoopResult.state] using hloopB

/-- C2: a run on a pending deal whose first LLM response decodes to JSON
satisfying the `ExtractedDeal` schema returns normally, persists exactly the
statuses `extracting`, `validating`, `completed` in that order (the record
starts at `pending`), publishes exactly the corresponding three status
events in that order, and persists every `ExtractedDeal` field verbatim
into the record, leaving raw text and hash unchanged. -/
theorem claim_C2 (env : RunEnv) (deal_id : String) (d : Deal)
    (resp : String) (j : Json) (e : ExtractedDeal)
    (hok1 : env.updateStatusOk = true) (hok2 : env.updateExtractedOk = true)
    (hok3 : env.getDealOk = true) (hws : env.hasWs = true)
    (hd : getDealById env.store deal_id = some d)
    (_hpend : d.status = DealStatus.pending)
    (hex : env.llm.extract d.raw_text = Except.ok resp)
    (hparse : env.llm.parse resp = Except.ok j)
    (hschema : extractedDealOfJson j = Except.ok e) :
    (processDealExtraction env deal_id).2 = none ∧
    (processDealExtraction env deal_id).1.statusWrites =
      [DealStatus.extracting, DealStatus.validating, DealStatus.completed] ∧
    (processDealExtraction env deal_id).1.events =
      [(DealStatus.extracting, (none : Option String)),
       (DealStatus.validating, none), (DealStatus.completed, none)] ∧
    getDealById (processDealExtraction env deal_id).1.store deal_id =
      some { d with
        status := DealStatus.completed
        last_error := none
        company_name := some e.company_name
        founders := some e.founders
        sector := some e.sector
        geography := some e.geography
        stage := some e.stage
        round_size := some e.round_size
        metrics := some e.metrics
        investment_brief := some e.investment_brief
        tags := some e.tags } := by
  have hv : validateAndParse env.llm.parse resp = Except.ok e := by
    unfold validateAndParse
    rw [hparse]
    exact hschema
  have hstore1 : (stPublish env.hasWs (stStatus (initRunState env.store)
      deal_id DealStatus.extracting none) DealStatus.extracting none).store =
      updateDealStatus env.store deal_id DealStatus.extracting none := by
    rw [stPublish_store]
    rfl
  have hget1 : getDealById (stPublish env.hasWs (stStatus
      (initRunState env.store) deal_id DealStatus.extracting none)
      DealStatus.extracting none).store deal_id =
      some { d with status := DealStatus.extracting, last_error := none } := by
    rw [hstore1, getDealById_updateDealStatus, hd]
    rfl
  have h2 : MAX_RETRIES = 1 + 1 := rfl
  unfold processDealExtraction
  simp only [hok1, if_true, hok3, hget1]
  rw [show ({ d with status := DealStatus.extracting, last_error := none } :
    Deal).raw_text = d.raw_text from rfl, hex]
  dsimp only
  rw [h2, validationLoop_ok_step env deal_id 1 resp none _ e hv hok2]
  dsimp only
  refine ⟨rfl, ?_, ?_, ?_⟩
  · simp [stExtracted, stStatus, stPublish, initRunState, hws]
  · simp [stExtracted, stStatus, stPublish, initRunState, hws]
  · have hse : ∀ s : RunState, (stExtracted s deal_id e).store =
        updateDealExtracted s.store deal_id e := fun _ => rfl
    have hss : ∀ (s : RunState) (st : DealStatus) (er : Option String),
        (stStatus s deal_id st er).store =
          updateDealStatus s.store deal_id st er := fun _ _ _ => rfl
    have hsi : (initRunState env.store).store = env.store := rfl
    simp only [stPublish_store, hse, hss, hsi]
    rw [getDealById_updateDealExtracted, getDealById_updateDealStatus,
      getDealById_updateDealStatus, hd]
    rfl

/-- C2 witness: the happy-path run on the sample store. -/
theorem claim_C2_witness :
    (processDealExtraction envHappy "id-1").1.statusWrites =
      [DealStatus.extracting, DealStatus.validating, DealStatus.completed] ∧
    (processDealExtraction envHappy "id-1").1.events =
      [(DealStatus.extracting, (none : Option String)),
       (DealStatus.validating, none), (DealStatus.completed, none)] := by
  have h := claim_C2 envHappy "id-1" sampleDeal "R1" goodJson
    sampleExtracted rfl rfl rfl rfl (by decide) rfl rfl rfl rfl
  exact ⟨h.2.1, h.2.2.1⟩

/-- C3: every run makes at most `MAX_RETRIES = 2` validation attempts, and
a run whose first attempt fails with a caught validation error and whose
repaired second attempt validates completes successfully with exactly two
validation attempts and exactly one repair call, none after the success. -/
theorem claim_C3 (env : RunEnv) (deal_id : String) (d : Deal)
    (resp1 resp2 : String) (ex1 : PyExn) (e : ExtractedDeal)
    (hok1 : env.updateStatusOk = true) (hok2 : env.updateExtractedOk = true)
    (hok3 : env.getDealOk = true) (hws : env.hasWs = true)
    (hd : getDealById env.store deal_id = some d)
    (hex : env.llm.extract d.raw_text = Except.ok resp1)
    (hv1 : validateAndParse env.llm.parse resp1 = Except.error ex1)
    (hc1 : ex1.caughtByLoop = true)
    (hrep : env.llm.repair resp1 ex1.message = Except.ok resp2)
    (hv2 : validateAndParse env.llm.parse resp2 = Except.ok e) :
    (∀ (env' : RunEnv) (id' : String),
      (processDealExtraction env' id').1.attempts ≤ MAX_RETRIES) ∧
    (processDealExtraction env deal_id).2 = none ∧
    (processDealExtraction env deal_id).1.attempts = 2 ∧
    (processDealExtraction env deal_id).1.repairCalls = 1 ∧
    (processDealExtraction env deal_id).1.statusWrites =
      [DealStatus.extracting, DealStatus.validating, DealStatus.completed] := by
  refine ⟨process_attempts_le, ?_⟩
  have hstore1 : (stPublish env.hasWs (stStatus (initRunState env.store)
      deal_id DealStatus.extracting none) DealStatus.extracting none).store =
      updateDealStatus env.store deal_id DealStatus.extracting none := by
    rw [stPublish_store]
    rfl
  have hget1 : getDealById (stPublish env.hasWs (stStatus
      (initRunState env.store) deal_id DealStatus.extracting none)
      DealStatus.extracting none).store deal_id =
      some { d with status := DealStatus.extracting, last_error := none } := by
    rw [hstore1, getDealById_updateDealStatus, hd]
    rfl
  have h2 : MAX_RETRIES = 1 + 1 := rfl
  unfold processDealExtraction
  simp only [hok1, if_true, hok3, hget1]
  rw [show ({ d with status := DealStatus.extracting, last_error := none } :
    Deal).raw_text = d.raw_text from rfl, hex]
  dsimp only
  rw [h2, validationLoop_err_step env deal_id 1 resp1 resp2 none _ ex1 hv1
    hc1 (by omega) hrep]
  rw [show (1 : Nat) = 0 + 1 from rfl,
    validationLoop_ok_step env deal_id 0 resp2 (some ex1.message) _ e hv2
      hok2]
  dsimp only
  refine ⟨rfl, ?_, ?_, ?_⟩
  · simp [stExtracted, stStatus, stPublish, initRunState, hws]
  · simp [stExtracted, stStatus, stPublish, initRunState, hws]
  · simp [stExtracted, stStatus, stPublish, initRunState, hws]

/-- C3 witness: the repair-wins run on the sample store. -/
theorem claim_C3_witness :
    (processDealExtraction envRepair "id-1").1.attempts = 2 ∧
    (processDealExtraction envRepair "id-1").1.repairCalls = 1 := by
  have h := claim_C3 envRepair "id-1" sampleDeal "R1" "R2"
    (PyExn.jsonDecodeError "Expecting value") sampleExtracted rfl rfl rfl rfl
    (by decide) rfl rfl rfl rfl rfl
  exact ⟨h.2.2.1, h.2.2.2.1⟩

/-- C4: a run in which both validation attempts fail with caught errors
(parse error or schema violation) returns normally with the deal marked
`failed`, `last_error` equal to the error string of the final failed
attempt, only the statuses `extracting`, `validating`, `failed` persisted,
the error published with the `failed` event, and no structured field
written (the final record keeps the fields of the starting record). -/
theorem claim_C4 (env : RunEnv) (deal_id : String) (d : Deal)
    (resp1 resp2 : String) (ex1 ex2 : PyExn)
    (hok1 : env.updateStatusOk = true)
    (hok3 : env.getDealOk = true) (hws : env.hasWs = true)
    (hd : getDealById env.store deal_id = some d)
    (hex : env.llm.extract d.raw_text = Except.ok resp1)
    (hv1 : validateAndParse env.llm.parse resp1 = Except.error ex1)
    (hc1 : ex1.caughtByLoop = true)
    (hrep : env.llm.repair resp1 ex1.message = Except.ok resp2)
    (hv2 : validateAndParse env.llm.parse resp2 = Except.error ex2)
    (hc2 : ex2.caughtByLoop = true) :
    (processDealExtraction env deal_id).2 = none ∧
    (processDealExtraction env deal_id).1.statusWrites =
      [DealStatus.extracting, DealStatus.validating, DealStatus.failed] ∧
    (processDealExtraction env deal_id).1.events =
      [(DealStatus.extracting, (none : Option String)),
       (DealStatus.validating, none),
       (DealStatus.failed, some ex2.message)] ∧
    getDealById (processDealExtraction env deal_id).1.store deal_id =
      some { d with status := DealStatus.failed,
                    last_error := some ex2.message } := by
  have hstore1 : (stPublish env.hasWs (stStatus (initRunState env.store)
      deal_id DealStatus.extracting none) DealStatus.extracting none).store =
      updateDealStatus env.store deal_id DealStatus.extracting none := by
    rw [stPublish_store]
    rfl
  have hget1 : getDealById (stPublish env.hasWs (stStatus
      (initRunState env.store) deal_id DealStatus.extracting none)
      DealStatus.extracting none).store deal_id =
      some { d with status := DealStatus.extracting, last_error := none } := by
    rw [hstore1, getDealById_updateDealStatus, hd]
    rfl
  have h2 : MAX_RETRIES = 1 + 1 := rfl
  unfold processDealExtraction
  simp only [hok1, if_true, hok3, hget1]
  rw [show ({ d with status := DealStatus.extracting, last_error := none } :
    Deal).raw_text = d.raw_text from rfl, hex]
  dsimp only
  rw [h2, validationLoop_err_step env deal_id 1 resp1 resp2 none _ ex1 hv1
    hc1 (by omega) hrep]
  rw [show (1 : Nat) = 0 + 1 from rfl,
    validationLoop_err_last env deal_id resp2 (some ex1.message) _ ex2 hv2
      hc2]
  dsimp only
  simp only [hok1, if_true]
  refine ⟨by trivial, ?_, ?_, ?_⟩
  · simp [stStatus, stPublish, initRunState, hws]
  · simp [stStatus, stPublish, initRunState, hws]
  · have hss : ∀ (s : RunState) (st : DealStatus) (er : Option String),
        (stStatus s deal_id st er).store =
          updateDealStatus s.store deal_id st er := fun _ _ _ => rfl
    have hsi : (initRunState env.store).store = env.store := rfl
    simp only [stPublish_store, hss, hsi]
    rw [getDealById_updateDealStatus, getDealById_updateDealStatus,
      getDealById_updateDealStatus, hd]
    rfl

/-- C4 witness: the all-attempts-fail run on the sample store. -/
theorem claim_C4_witness :
    getDealById (processDealExtraction envAllFail "id-1").1.store "id-1" =
      some { sampleDeal with
        status := DealStatus.failed
        last_error := some "Expecting value" } := by
  have h := claim_C4 envAllFail "id-1" sampleDeal "R1" "R2"
    (PyExn.jsonDecodeError "Expecting value")
    (PyExn.jsonDecodeError "Expecting value") rfl rfl rfl (by decide) rfl
    rfl rfl rfl rfl rfl
  exact h.2.2.2

/-- C5 counterexample: with a store whose `update_deal_status` raises, the
orchestrator raises to its caller — the `except` handler's own
`update_deal_status` call fails and the exception escapes — refuting
"never raises for every behaviour of the collaborators". -/
theorem claim_C5_counterexample :
    (processDealExtraction envStoreDown "id-1").2 =
      some "StoreError: update failed" ∧
    (processDealExtraction envStoreDown "id-1").2 ≠ none := by
  decide

/-- C5 (amended): the orchestrator surfaces no exception to its caller
provided the store's status updates succeed — in particular the
failure-marking update in the `except` handler; when that update itself
raises, the exception propagates. -/
theorem claim_C5_amended (env : RunEnv) (deal_id : String)
    (h : env.updateStatusOk = true) :
    (processDealExtraction env deal_id).2 = none := by
  have hf : ∀ (msg : String) (s : RunState),
      (failHandler env deal_id msg s).2 = none := by
    intro msg s
    simp [failHandler, h]
  unfold processDealExtraction
  simp only [h, if_true]
  cases hg : env.getDealOk with
  | false =>
    simp only [hg, Bool.false_eq_true, if_false]
    exact hf _ _
  | true =>
    simp only [hg, if_true]
    cases hd : getDealById (stPublish env.hasWs (stStatus
        (initRunState env.store) deal_id DealStatus.extracting none)
        DealStatus.extracting none).store deal_id with
    | none =>
      simp only [hd]
      exact hf _ _
    | some deal =>
      simp only [hd]
      cases hx : env.llm.extract deal.raw_text with
      | error msg =>
        simp only [hx]
        exact hf _ _
      | ok resp =>
        simp only [hx]
        cases hloop : validationLoop env deal_id MAX_RETRIES resp none
            (stPublish env.hasWs (stStatus (stPublish env.hasWs (stStatus
            (initRunState env.store) deal_id DealStatus.extracting none)
            DealStatus.extracting none) deal_id DealStatus.validating none)
            DealStatus.validating none) with
        | completed s3 => simp only [hloop]
        | exhausted s3 lastErr => simp only [hloop, h, if_true]
        | raised s3 msg =>
          simp only [hloop]
          exact hf _ _

/-- C5 amended-claim witness: the happy-path run returns normally. -/
theorem claim_C5_amended_witness :
    (processDealExtraction envHappy "id-1").2 = none :=
  claim_C5_amended envHappy "id-1" rfl

end DealBrief







